import Mathlib

/-!
Verification of `scrape_checkio.py`: a one-shot exporter that fetches a
user's CheckiO solutions through a browser session and writes them to a
category-structured file tree.  The browser and the filesystem are
modelled as oracles inside an explicit environment (`Env`) and state
(`SysState`); each Python function is embedded as a pure Lean function
over those.
-/

namespace ScrapeCheckio

/-- `PAGE_RETRIES = 3` from the source (line 19). -/
def PAGE_RETRIES : Nat := 3

/-- `RETRY_DELAY_SECS = 5` from the source (line 20). -/
def RETRY_DELAY_SECS : Nat := 5

/-- Outcome of one read of the rendered editor lines inside `get_solution`:
either the read raises `StaleElementReferenceException` or it succeeds with
the list of line texts. -/
inductive ReadAttempt where
  | stale
  | ok (lines : List String)
deriving DecidableEq

/-- Observable trace of one `get_solution` call: its returned value, the
final value of the `attempts` counter, and the list of `time.sleep`
durations performed (one entry per stale failure). -/
structure FetchTrace where
  result : Option (List String)
  attempts : Nat
  delays : List Nat
deriving DecidableEq

/-- The retry loop of `get_solution` (source lines 137-149).  `reads i` is
the outcome of the i-th read of the `ace_line` elements (1-based, matching
the `attempts` counter which is incremented before the read).  The loop
runs while `attempts <= PAGE_RETRIES`; a successful read returns its lines
at once; a stale read sleeps `RETRY_DELAY_SECS` and retries; on exhaustion
the function returns `None`. -/
def get_solution_loop (reads : Nat → ReadAttempt) (attempts : Nat) (delays : List Nat) :
    FetchTrace :=
  if attempts ≤ PAGE_RETRIES then
    match reads (attempts + 1) with
    | .ok lines => ⟨some lines, attempts + 1, delays⟩
    | .stale => get_solution_loop reads (attempts + 1) (delays ++ [RETRY_DELAY_SECS])
  else
    ⟨none, attempts, delays⟩
termination_by PAGE_RETRIES + 1 - attempts
decreasing_by simp_wf; omega

/-- `get_solution` (source lines 119-149), starting from `attempts = 0`
and no sleeps performed. -/
def get_solution (reads : Nat → ReadAttempt) : FetchTrace :=
  get_solution_loop reads 0 []

/-- A mission dict as built by `get_missions` (source line 110): a display
title and the URL path name (slug). -/
structure Mission where
  title : String
  url_name : String
deriving DecidableEq

/-- Ambient system state: the current working directory and the file
contents, keyed by full path.  A file is stored as its list of lines
(what `f.read().splitlines()` yields, and what writing line-by-line with
`print` produces). -/
structure SysState where
  cwd : String
  files : String → Option (List String)

/-- Environment oracles for one run: `fetch slug` is the result of
`get_solution` for that slug (`none` models a `None` return; a capture
with no lines is `some []`); `now` is
the `datetime.now().strftime` timestamp; `dirOK path` tells whether
`create_and_switch_to_dir` succeeds for that full path; `writeOK path`
tells whether opening-and-writing the file at that full path succeeds. -/
structure Env where
  fetch : String → Option (List String)
  now : String
  dirOK : String → Bool
  writeOK : String → Bool

/-- Outcome of one `write_solution_to_file` call: content already
identical so nothing touched, file (over)written, or `IOError` raised. -/
inductive WriteOutcome where
  | skipped
  | written
  | ioError
deriving DecidableEq

/-- The header comment line `# "<title>" downloaded: <time>` (source
line 182). -/
def header_line (title now : String) : String :=
  "# \"" ++ title ++ "\" downloaded: " ++ now

/-- The composed file content: header line followed by the downloaded
lines (source lines 182-183). -/
def compose_code (m : Mission) (downloaded : List String) (now : String) : List String :=
  header_line m.title now :: downloaded

/-- The filename `mission['url_name'] + '.py'` (source line 184). -/
def solution_filename (m : Mission) : String :=
  m.url_name ++ ".py"

/-- State after the file at `path` is set to `v` (`some` lines for a
completed write, `none` for a removed file); the cwd is untouched. -/
def setFile (st : SysState) (path : String) (v : Option (List String)) : SysState :=
  { st with files := fun p => if p = path then v else st.files p }

/-- `write_solution_to_file` (source lines 168-202).  Raising `IOError`
is modelled as the `.ioError` outcome.  Steps, in source order: fetch the
solution, raise if falsy (`None` or empty list); compose header + code;
if the file exists with identical line content, return without writing;
otherwise write the file, and on write failure remove the partial file
and re-raise. -/
def write_solution_to_file (env : Env) (m : Mission) (st : SysState) :
    WriteOutcome × SysState :=
  match env.fetch m.url_name with
  | none => (.ioError, st)
  | some downloaded =>
    if downloaded = [] then (.ioError, st)
    else
      let code := compose_code m downloaded env.now
      let path := st.cwd ++ "/" ++ solution_filename m
      if st.files path = some code then
        (.skipped, st)
      else if env.writeOK path then
        (.written, setFile st path (some code))
      else
        (.ioError, setFile st path none)

/-- The folder name for a section:
`"".join(char for char in section_name if char.isalnum())`
(source line 218). -/
def sanitize (s : String) : String :=
  String.mk (s.toList.filter Char.isAlphanum)

/-- The per-mission loop of `download_section` (source lines 224-229):
each mission is written; an `IOError` appends the error string
`"<section>: <title>"` and processing continues with the next mission. -/
def process_missions (env : Env) (ms : List Mission) (section_name : String) (st : SysState) :
    List String × SysState :=
  match ms with
  | [] => ([], st)
  | m :: rest =>
    let step := write_solution_to_file env m st
    let next := process_missions env rest section_name step.2
    match step.1 with
    | .ioError => ((section_name ++ ": " ++ m.title) :: next.1, next.2)
    | _ => next

/-- The console line printed on entry to `download_section` (source line
215): it reports the length of the GLOBAL `mission_list`, not of the
`missions` parameter, which is unused. -/
def download_section_banner (section_name : String) (mission_list : List Mission)
    (missions : List Mission) : String :=
  "Getting section (" ++ section_name ++ ") with " ++
    toString mission_list.length ++ " missions"

/-- `download_section` (source lines 205-232).  `mission_list` is the
GLOBAL variable of that name (the loop variable of `__main__`), which the
body iterates over; `missions` is the declared parameter, which the body
never reads.  Remembers the original cwd, creates and enters the
sanitized section folder (one aggregate error on failure, state
untouched), writes every mission of the global list collecting
per-mission errors, and returns to the original cwd. -/
def download_section (env : Env) (mission_list : List Mission) (section_name : String)
    (missions : List Mission) (st : SysState) : List String × SysState :=
  let original_dir := st.cwd
  let dir_name := sanitize section_name
  if env.dirOK (st.cwd ++ "/" ++ dir_name) then
    let entered : SysState := { st with cwd := st.cwd ++ "/" ++ dir_name }
    let res := process_missions env mission_list section_name entered
    (res.1, { res.2 with cwd := original_dir })
  else
    (["Unable to create folder for section: " ++ section_name], st)

/-- The `__main__` section loop (source lines 277-284): a section with an
empty name contributes an `Unknown section` header plus one `-- <title>`
line per mission to the error list and is never downloaded; any other
section is downloaded via `download_section`, with the global
`mission_list` bound to that section's list (as `__main__` does through
its loop variable). -/
def run_sections (env : Env) (sections : List (String × List Mission)) (st : SysState) :
    List String × SysState :=
  match sections with
  | [] => ([], st)
  | (section_name, ml) :: rest =>
    if section_name = "" then
      let next := run_sections env rest st
      (("Unknown section containing:" :: ml.map (fun m => "-- " ++ m.title)) ++ next.1,
        next.2)
    else
      let res := download_section env ml section_name ml st
      let next := run_sections env rest res.2
      (res.1 ++ next.1, next.2)

/-- Result of a whole run: `fatal msg` models `sys.exit(msg)` (non-zero
exit status), `completed errors st` models reaching the final report with
the accumulated error summary. -/
inductive RunResult where
  | fatal (msg : String)
  | completed (errors : List String) (st : SysState)

/-- The run from after authentication (source lines 271-292): missing
username exits fatally; otherwise all sections are processed and the run
completes with the accumulated errors. -/
def main_after_login (env : Env) (username : Option String)
    (catalog : List (String × List Mission)) (st : SysState) : RunResult :=
  match username with
  | none => .fatal "ERROR: Unable to get username - was login successful?"
  | some _ =>
    let res := run_sections env catalog st
    .completed res.1 res.2

/-- The `__main__` block (source lines 260-292).  `dest_dir` is the
optional `-d` argument: if present and uncreatable, exit fatally;
`username` is `get_username`'s result; `catalog` is `get_missions`'s
result (the empty list when enumeration failed).  Per-exercise and
per-category errors only accumulate into the completed result. -/
def main_run (env : Env) (dest_dir : Option String) (username : Option String)
    (catalog : List (String × List Mission)) (st : SysState) : RunResult :=
  match dest_dir with
  | none => main_after_login env username catalog st
  | some d =>
    if env.dirOK (st.cwd ++ "/" ++ d) then
      main_after_login env username catalog { st with cwd := st.cwd ++ "/" ++ d }
    else
      .fatal "ERROR: Unable to create destination folder"

/-- Concrete mission fixture used by the witnesses. -/
def m0 : Mission := ⟨"Add", "add"⟩

/-- Concrete initial state fixture: empty filesystem, cwd `root`. -/
def st0 : SysState := ⟨"root", fun _ => none⟩

/-- Environment fixture where everything succeeds. -/
def env0 : Env := ⟨fun _ => some ["a = 1", "b = 2"], "Mon Oct 12", fun _ => true, fun _ => true⟩

/-- Environment fixture where every fetch returns `None`. -/
def envFetchFails : Env := ⟨fun _ => none, "Mon Oct 12", fun _ => true, fun _ => true⟩

/-- Environment fixture where every file write fails. -/
def envWriteFails : Env := ⟨fun _ => some ["a = 1"], "Mon Oct 12", fun _ => true, fun _ => false⟩

/-- Environment fixture where every directory creation fails. -/
def envDirFails : Env := ⟨fun _ => some ["a = 1"], "Mon Oct 12", fun _ => false, fun _ => true⟩

end ScrapeCheckio

namespace ScrapeCheckio

/-- C1: for every fetch of a solution, the fetcher attempts the read at
most 4 times (one initial attempt plus 3 retries); every stale failure is
followed by one fixed 5-second sleep, so on exhaustion exactly 4 delays of
5 seconds occur and `None` is returned with no exception escaping; any
successful read returns its lines immediately, short-circuiting the
remaining attempts. -/
theorem claim1_fetch_retry_budget (reads : Nat → ReadAttempt) :
    (get_solution reads).attempts ≤ PAGE_RETRIES + 1 ∧
    ((∀ i, 1 ≤ i → i ≤ PAGE_RETRIES + 1 → reads i = .stale) →
      get_solution reads =
        ⟨none, PAGE_RETRIES + 1, List.replicate (PAGE_RETRIES + 1) RETRY_DELAY_SECS⟩) ∧
    (∀ k lines, 1 ≤ k → k ≤ PAGE_RETRIES + 1 → reads k = .ok lines →
      (∀ i, 1 ≤ i → i < k → reads i = .stale) →
      (get_solution reads).result = some lines ∧ (get_solution reads).attempts = k) := by
  refine ⟨?_, ?_, ?_⟩
  · cases h1 : reads 1 with
    | ok l => simp [get_solution, get_solution_loop, PAGE_RETRIES, h1]
    | stale =>
      cases h2 : reads 2 with
      | ok l => simp [get_solution, get_solution_loop, PAGE_RETRIES, h1, h2]
      | stale =>
        cases h3 : reads 3 with
        | ok l => simp [get_solution, get_solution_loop, PAGE_RETRIES, h1, h2, h3]
        | stale =>
          cases h4 : reads 4 with
          | ok l => simp [get_solution, get_solution_loop, PAGE_RETRIES, h1, h2, h3, h4]
          | stale => simp [get_solution, get_solution_loop, PAGE_RETRIES, h1, h2, h3, h4]
  · intro h
    have h1 := h 1 (by omega) (by simp [PAGE_RETRIES])
    have h2 := h 2 (by omega) (by simp [PAGE_RETRIES])
    have h3 := h 3 (by omega) (by simp [PAGE_RETRIES])
    have h4 := h 4 (by omega) (by simp [PAGE_RETRIES])
    simp [get_solution, get_solution_loop, PAGE_RETRIES, RETRY_DELAY_SECS, h1, h2, h3, h4]
  · intro k lines hk1 hk4 hok hprev
    have hk4' : k ≤ 4 := by simpa [PAGE_RETRIES] using hk4
    interval_cases k
    · simp [get_solution, get_solution_loop, PAGE_RETRIES, hok]
    · have h1 := hprev 1 (by omega) (by omega)
      simp [get_solution, get_solution_loop, PAGE_RETRIES, h1, hok]
    · have h1 := hprev 1 (by omega) (by omega)
      have h2 := hprev 2 (by omega) (by omega)
      simp [get_solution, get_solution_loop, PAGE_RETRIES, h1, h2, hok]
    · have h1 := hprev 1 (by omega) (by omega)
      have h2 := hprev 2 (by omega) (by omega)
      have h3 := hprev 3 (by omega) (by omega)
      simp [get_solution, get_solution_loop, PAGE_RETRIES, h1, h2, h3, hok]

/-- Witness for C1: under a layer that always raises the stale condition,
the fetch returns `None` after exactly 4 attempts with 4 five-second
sleeps. -/
theorem claim1_fetch_retry_budget_witness :
    get_solution (fun _ => ReadAttempt.stale) =
      ⟨none, PAGE_RETRIES + 1, List.replicate (PAGE_RETRIES + 1) RETRY_DELAY_SECS⟩ :=
  (claim1_fetch_retry_budget (fun _ => ReadAttempt.stale)).2.1 (fun _ _ _ => rfl)

/-- C2: when a file already exists at the target path and its content,
compared line for line and header included, equals the newly composed
content, the write is skipped entirely and the state is unchanged; in
particular a second call with the same fetched content and the same
timestamp after a successful write is a no-op. -/
theorem claim2_write_idempotent (env : Env) (m : Mission) (st : SysState) (d : List String)
    (hf : env.fetch m.url_name = some d) (hd : d ≠ [])
    (hw : env.writeOK (st.cwd ++ "/" ++ solution_filename m) = true) :
    (st.files (st.cwd ++ "/" ++ solution_filename m) = some (compose_code m d env.now) →
      write_solution_to_file env m st = (.skipped, st)) ∧
    write_solution_to_file env m ((write_solution_to_file env m st).2) =
      (.skipped, (write_solution_to_file env m st).2) := by
  constructor
  · intro heq
    simp [write_solution_to_file, hf, hd, heq]
  · by_cases heq : st.files (st.cwd ++ "/" ++ solution_filename m) = some (compose_code m d env.now)
    · simp [write_solution_to_file, hf, hd, heq]
    · have hstep : write_solution_to_file env m st =
          (.written, setFile st (st.cwd ++ "/" ++ solution_filename m)
            (some (compose_code m d env.now))) := by
        simp [write_solution_to_file, hf, hd, heq, hw]
      rw [hstep]
      simp [write_solution_to_file, setFile, hf, hd]

/-- Witness for C2 at concrete inputs. -/
theorem claim2_write_idempotent_witness :
    (st0.files (st0.cwd ++ "/" ++ solution_filename m0) =
        some (compose_code m0 ["a = 1", "b = 2"] env0.now) →
      write_solution_to_file env0 m0 st0 = (.skipped, st0)) ∧
    write_solution_to_file env0 m0 ((write_solution_to_file env0 m0 st0).2) =
      (.skipped, (write_solution_to_file env0 m0 st0).2) :=
  claim2_write_idempotent env0 m0 st0 ["a = 1", "b = 2"] rfl (List.cons_ne_nil _ _) rfl

/-- C7: when the fetched lines are `None` or the empty list, the write
operation raises `IOError` and leaves the filesystem untouched. -/
theorem claim7_empty_fetch_ioerror (env : Env) (m : Mission) (st : SysState)
    (h : env.fetch m.url_name = none ∨ env.fetch m.url_name = some []) :
    write_solution_to_file env m st = (.ioError, st) := by
  rcases h with h | h <;> simp [write_solution_to_file, h]

/-- Witness for C7: a fetch returning `None` makes the write raise. -/
theorem claim7_empty_fetch_ioerror_witness :
    write_solution_to_file envFetchFails m0 st0 = (.ioError, st0) :=
  claim7_empty_fetch_ioerror envFetchFails m0 st0 (Or.inl rfl)

/-- C8: when the write itself fails mid-stream, the partially written
file is deleted (the target path holds no file afterwards) and the
failure is propagated to the caller as `IOError`. -/
theorem claim8_midstream_cleanup (env : Env) (m : Mission) (st : SysState) (d : List String)
    (hf : env.fetch m.url_name = some d) (hd : d ≠ [])
    (hne : st.files (st.cwd ++ "/" ++ solution_filename m) ≠ some (compose_code m d env.now))
    (hw : env.writeOK (st.cwd ++ "/" ++ solution_filename m) = false) :
    (write_solution_to_file env m st).1 = .ioError ∧
    (write_solution_to_file env m st).2.files (st.cwd ++ "/" ++ solution_filename m) = none := by
  simp [write_solution_to_file, setFile, hf, hd, hne, hw]

/-- Witness for C8 at concrete inputs. -/
theorem claim8_midstream_cleanup_witness :
    (write_solution_to_file envWriteFails m0 st0).1 = .ioError ∧
    (write_solution_to_file envWriteFails m0 st0).2.files
      (st0.cwd ++ "/" ++ solution_filename m0) = none :=
  claim8_midstream_cleanup envWriteFails m0 st0 ["a = 1"] rfl
    (List.cons_ne_nil _ _) (fun h => Option.noConfusion h) rfl

/-- String concatenation cancels on the right. -/
theorem string_append_right_cancel {a b c : String} (h : a ++ c = b ++ c) : a = b := by
  apply String.ext
  have hdata := congrArg String.data h
  rw [String.data_append, String.data_append] at hdata
  exact List.append_cancel_right hdata

/-- String concatenation cancels on the left. -/
theorem string_append_left_cancel {a b c : String} (h : a ++ b = a ++ c) : b = c := by
  apply String.ext
  have hdata := congrArg String.data h
  rw [String.data_append, String.data_append] at hdata
  exact List.append_cancel_left hdata

/-- Missions with distinct slugs get distinct file paths under the same
working directory. -/
theorem path_ne_of_url_ne {a b : Mission} (base : String) (h : a.url_name ≠ b.url_name) :
    base ++ "/" ++ solution_filename a ≠ base ++ "/" ++ solution_filename b := by
  intro hcontra
  exact h (string_append_right_cancel (string_append_left_cancel hcontra))

/-- `write_solution_to_file` never changes the working directory. -/
theorem write_solution_cwd (env : Env) (m : Mission) (st : SysState) :
    (write_solution_to_file env m st).2.cwd = st.cwd := by
  unfold write_solution_to_file
  rcases env.fetch m.url_name with _ | d
  · rfl
  · dsimp only
    split_ifs <;> rfl

/-- `write_solution_to_file` touches no path other than its own target. -/
theorem write_solution_other_path (env : Env) (m : Mission) (st : SysState) (p : String)
    (hp : p ≠ st.cwd ++ "/" ++ solution_filename m) :
    (write_solution_to_file env m st).2.files p = st.files p := by
  unfold write_solution_to_file
  rcases env.fetch m.url_name with _ | d
  · rfl
  · dsimp only
    split_ifs <;> simp [setFile, hp]

/-- After a write whose fetch succeeded with nonempty lines and whose
file write succeeds, the target path holds the composed content. -/
theorem write_solution_success (env : Env) (m : Mission) (st : SysState) (d : List String)
    (hf : env.fetch m.url_name = some d) (hd : d ≠ [])
    (hw : env.writeOK (st.cwd ++ "/" ++ solution_filename m) = true) :
    (write_solution_to_file env m st).2.files (st.cwd ++ "/" ++ solution_filename m) =
      some (compose_code m d env.now) := by
  by_cases heq : st.files (st.cwd ++ "/" ++ solution_filename m) = some (compose_code m d env.now)
  · simp [write_solution_to_file, hf, hd, heq]
  · simp [write_solution_to_file, setFile, hf, hd, heq, hw]

/-- The per-mission loop never changes the working directory. -/
theorem process_missions_cwd (env : Env) (ms : List Mission) (sec : String) (st : SysState) :
    (process_missions env ms sec st).2.cwd = st.cwd := by
  induction ms generalizing st with
  | nil => rfl
  | cons m rest ih =>
    simp only [process_missions]
    cases hstep : (write_solution_to_file env m st).1 <;>
      simp only [hstep] <;>
      rw [ih, write_solution_cwd]

/-- The per-mission loop touches no path outside the targets of its
missions. -/
theorem process_missions_other_path (env : Env) (ms : List Mission) (sec : String)
    (st : SysState) (p : String)
    (hp : ∀ m ∈ ms, p ≠ st.cwd ++ "/" ++ solution_filename m) :
    (process_missions env ms sec st).2.files p = st.files p := by
  induction ms generalizing st with
  | nil => rfl
  | cons m rest ih =>
    have hpm := hp m (List.mem_cons_self m rest)
    have hrest : ∀ m' ∈ rest,
        p ≠ (write_solution_to_file env m st).2.cwd ++ "/" ++ solution_filename m' := by
      intro m' hm'
      rw [write_solution_cwd]
      exact hp m' (List.mem_cons_of_mem m hm')
    simp only [process_missions]
    cases hstep : (write_solution_to_file env m st).1 <;>
      simp only [hstep] <;>
      rw [ih _ hrest, write_solution_other_path env m st p hpm]

/-- After the per-mission loop, a mission of the list whose fetch
succeeded with nonempty lines and whose write succeeds has its composed
content at its target path, provided the slugs in the list are pairwise
distinct. -/
theorem process_missions_hit (env : Env) (ms : List Mission) (sec : String) (st : SysState)
    (m : Mission) (d : List String) (hm : m ∈ ms)
    (hdist : ms.Pairwise fun a b => a.url_name ≠ b.url_name)
    (hf : env.fetch m.url_name = some d) (hd : d ≠ [])
    (hw : env.writeOK (st.cwd ++ "/" ++ solution_filename m) = true) :
    (process_missions env ms sec st).2.files (st.cwd ++ "/" ++ solution_filename m) =
      some (compose_code m d env.now) := by
  induction ms generalizing st with
  | nil => cases hm
  | cons m1 rest ih =>
    rcases List.mem_cons.mp hm with rfl | hm'
    · have hhead := write_solution_success env m st d hf hd hw
      have hothers : ∀ m' ∈ rest,
          st.cwd ++ "/" ++ solution_filename m ≠
            (write_solution_to_file env m st).2.cwd ++ "/" ++ solution_filename m' := by
        intro m' hm'
        rw [write_solution_cwd]
        exact path_ne_of_url_ne st.cwd ((List.pairwise_cons.mp hdist).1 m' hm')
      simp only [process_missions]
      cases hstep : (write_solution_to_file env m st).1 <;>
        simp only [hstep] <;>
        rw [process_missions_other_path env rest sec _ _ hothers, hhead]
    · have hcwd := write_solution_cwd env m1 st
      have hw' : env.writeOK
          ((write_solution_to_file env m1 st).2.cwd ++ "/" ++ solution_filename m) = true := by
        rw [hcwd]; exact hw
      have hres := ih (write_solution_to_file env m1 st).2 hm'
        (List.Pairwise.of_cons hdist) hw'
      rw [hcwd] at hres
      simp only [process_missions]
      cases hstep : (write_solution_to_file env m1 st).1 <;>
        simp only [hstep] <;>
        exact hres

/-- C3: for every exercise of the section whose fetch succeeds (and whose
write is not refused by the filesystem), assuming the slugs in the
section are pairwise distinct, the written file sits in the directory
named from the category with non-alphanumeric characters stripped, is
named `<slug>.py`, and holds exactly the header line (display title plus
capture timestamp) followed by the fetched lines verbatim. -/
theorem claim3_written_file_layout (env : Env) (g : List Mission) (section_name : String)
    (p : List Mission) (st : SysState) (m : Mission) (d : List String)
    (hm : m ∈ g)
    (hdist : g.Pairwise fun a b => a.url_name ≠ b.url_name)
    (hdir : env.dirOK (st.cwd ++ "/" ++ sanitize section_name) = true)
    (hf : env.fetch m.url_name = some d) (hd : d ≠ [])
    (hw : env.writeOK
      (st.cwd ++ "/" ++ sanitize section_name ++ "/" ++ solution_filename m) = true) :
    (download_section env g section_name p st).2.files
        (st.cwd ++ "/" ++ sanitize section_name ++ "/" ++ solution_filename m) =
      some (compose_code m d env.now) ∧
    solution_filename m = m.url_name ++ ".py" ∧
    compose_code m d env.now = header_line m.title env.now :: d := by
  refine ⟨?_, rfl, rfl⟩
  have hmain := process_missions_hit env g section_name
    { st with cwd := st.cwd ++ "/" ++ sanitize section_name } m d hm hdist hf hd hw
  simp only [download_section, hdir]
  rw [if_pos trivial]
  exact hmain

/-- Witness for C3 at concrete inputs: section `Basics`, mission slug
`add`, fetched lines `a = 1` and `b = 2`. -/
theorem claim3_written_file_layout_witness :
    (download_section env0 [m0] "Basics" [] st0).2.files
        (st0.cwd ++ "/" ++ sanitize "Basics" ++ "/" ++ solution_filename m0) =
      some (compose_code m0 ["a = 1", "b = 2"] env0.now) ∧
    solution_filename m0 = m0.url_name ++ ".py" ∧
    compose_code m0 ["a = 1", "b = 2"] env0.now =
      header_line m0.title env0.now :: ["a = 1", "b = 2"] :=
  claim3_written_file_layout env0 [m0] "Basics" [] st0 m0 ["a = 1", "b = 2"]
    (List.mem_singleton.mpr rfl) (by simp) rfl rfl (List.cons_ne_nil _ _) rfl

/-- C9: processing a category leaves the working directory exactly where
it was, on the success path, on the folder-creation-failure path (the
directory was never entered) and regardless of per-exercise write
failures (caught inside the loop). -/
theorem claim9_cwd_restored (env : Env) (g : List Mission) (name : String)
    (p : List Mission) (st : SysState) :
    (download_section env g name p st).2.cwd = st.cwd := by
  simp only [download_section]
  split <;> rfl

/-- C10: `download_section` reads the global `mission_list` (and the
global browser handle, folded into `env`), never its `missions`
parameter: its banner line and its whole result are unchanged under any
change of the `missions` argument, and equal what passing the global
itself would produce. -/
theorem claim10_global_mission_list (env : Env) (g : List Mission) (name : String)
    (p1 p2 : List Mission) (st : SysState) :
    download_section env g name p1 st = download_section env g name p2 st ∧
    download_section env g name p1 st = download_section env g name g st ∧
    download_section_banner name g p1 = download_section_banner name g p2 :=
  ⟨rfl, rfl, rfl⟩

/-- C5: when the folder for a category cannot be created, the category
contributes exactly one aggregate error string naming it, no exercise in
it is fetched or written (the state is returned untouched), and the
remaining categories are still processed from the same state. -/
theorem claim5_folder_failure_isolation (env : Env) (g : List Mission) (name : String)
    (p ml : List Mission) (rest : List (String × List Mission)) (st : SysState)
    (hdir : env.dirOK (st.cwd ++ "/" ++ sanitize name) = false)
    (hname : name ≠ "") :
    download_section env g name p st =
      (["Unable to create folder for section: " ++ name], st) ∧
    run_sections env ((name, ml) :: rest) st =
      (("Unable to create folder for section: " ++ name) :: (run_sections env rest st).1,
        (run_sections env rest st).2) := by
  constructor
  · unfold download_section
    simp [hdir]
  · simp [run_sections, download_section, hdir, hname]

/-- Witness for C5 at concrete inputs: category `Home` with an
uncreatable folder. -/
theorem claim5_folder_failure_isolation_witness :
    download_section envDirFails [m0] "Home" [] st0 =
      (["Unable to create folder for section: " ++ "Home"], st0) ∧
    run_sections envDirFails [("Home", [m0])] st0 =
      (("Unable to create folder for section: " ++ "Home") ::
          (run_sections envDirFails [] st0).1,
        (run_sections envDirFails [] st0).2) :=
  claim5_folder_failure_isolation envDirFails [m0] "Home" [] [m0] [] st0 rfl (by decide)

/-- Splitting the section loop over a concatenation of catalogs. -/
theorem run_sections_append (env : Env) (xs ys : List (String × List Mission))
    (st : SysState) :
    run_sections env (xs ++ ys) st =
      ((run_sections env xs st).1 ++ (run_sections env ys (run_sections env xs st).2).1,
        (run_sections env ys (run_sections env xs st).2).2) := by
  induction xs generalizing st with
  | nil => simp [run_sections]
  | cons hd tl ih =>
    rcases hd with ⟨name, ml⟩
    by_cases hname : name = ""
    · subst hname
      simp [run_sections, ih, List.append_assoc]
    · simp [run_sections, hname, ih, List.append_assoc]

/-- C6: a category with an empty name contributes to the final error list
exactly the `Unknown section containing:` header followed by one
`-- <title>` entry per exercise, writes nothing to disk (the state it
passes to the remaining categories is the state it received), and every
other category is processed as usual. -/
theorem claim6_unknown_section_errors (env : Env) (pre : List (String × List Mission))
    (ml : List Mission) (post : List (String × List Mission)) (st : SysState) :
    run_sections env (pre ++ ("", ml) :: post) st =
      ((run_sections env pre st).1 ++
        ("Unknown section containing:" :: ml.map (fun m => "-- " ++ m.title)) ++
        (run_sections env post (run_sections env pre st).2).1,
        (run_sections env post (run_sections env pre st).2).2) := by
  rw [run_sections_append]
  simp [run_sections, List.append_assoc]

/-- C4: the run terminates with a non-zero-equivalent signal (`sys.exit`)
only for a fatal setup failure (the destination folder is uncreatable or
authentication failed so that no username could be read); whenever setup
succeeds, the run always reaches normal completion carrying the
accumulated per-exercise and per-category errors of the section loop as
its final summary, whatever those errors are. -/
theorem claim4_exit_behavior (env : Env) (dest : Option String) (user : Option String)
    (catalog : List (String × List Mission)) (st : SysState) :
    (∀ msg, main_run env dest user catalog st = .fatal msg →
      (msg = "ERROR: Unable to create destination folder" ∧
        ∃ d, dest = some d ∧ env.dirOK (st.cwd ++ "/" ++ d) = false) ∨
      (msg = "ERROR: Unable to get username - was login successful?" ∧ user = none)) ∧
    (∀ u, user = some u → dest = none →
      main_run env dest user catalog st =
        .completed (run_sections env catalog st).1 (run_sections env catalog st).2) ∧
    (∀ u d, user = some u → dest = some d → env.dirOK (st.cwd ++ "/" ++ d) = true →
      main_run env dest user catalog st =
        .completed
          (run_sections env catalog { st with cwd := st.cwd ++ "/" ++ d }).1
          (run_sections env catalog { st with cwd := st.cwd ++ "/" ++ d }).2) := by
  refine ⟨?_, ?_, ?_⟩
  · intro msg hmsg
    rcases dest with _ | d
    · rcases user with _ | u
      · right
        simp only [main_run, main_after_login, RunResult.fatal.injEq] at hmsg
        exact ⟨hmsg.symm, rfl⟩
      · simp [main_run, main_after_login] at hmsg
    · cases hdirb : env.dirOK (st.cwd ++ "/" ++ d) with
      | true =>
        rcases user with _ | u
        · right
          simp [main_run, main_after_login, hdirb] at hmsg
          exact ⟨hmsg.symm, rfl⟩
        · simp [main_run, main_after_login, hdirb] at hmsg
      | false =>
        left
        simp [main_run, hdirb] at hmsg
        exact ⟨hmsg.symm, d, rfl, hdirb⟩
  · intro u hu hdest
    subst hu hdest
    simp [main_run, main_after_login]
  · intro u d hu hdest hdir
    subst hu hdest
    simp [main_run, main_after_login, hdir]

/-- Witness for C4 at concrete inputs: successful setup with one
ordinary category completes normally with the loop's error summary. -/
theorem claim4_exit_behavior_witness :
    (∀ msg, main_run env0 (some "dl") (some "user") [("Basics", [m0])] st0 = .fatal msg →
      (msg = "ERROR: Unable to create destination folder" ∧
        ∃ d, (some "dl" : Option String) = some d ∧
          env0.dirOK (st0.cwd ++ "/" ++ d) = false) ∨
      (msg = "ERROR: Unable to get username - was login successful?" ∧
        (some "user" : Option String) = none)) ∧
    (∀ u, (some "user" : Option String) = some u → (some "dl" : Option String) = none →
      main_run env0 (some "dl") (some "user") [("Basics", [m0])] st0 =
        .completed (run_sections env0 [("Basics", [m0])] st0).1
          (run_sections env0 [("Basics", [m0])] st0).2) ∧
    (∀ u d, (some "user" : Option String) = some u →
      (some "dl" : Option String) = some d →
      env0.dirOK (st0.cwd ++ "/" ++ d) = true →
      main_run env0 (some "dl") (some "user") [("Basics", [m0])] st0 =
        .completed
          (run_sections env0 [("Basics", [m0])] { st0 with cwd := st0.cwd ++ "/" ++ d }).1
          (run_sections env0 [("Basics", [m0])] { st0 with cwd := st0.cwd ++ "/" ++ d }).2) :=
  claim4_exit_behavior env0 (some "dl") (some "user") [("Basics", [m0])] st0

end ScrapeCheckio
